import Mathlib

/-!
Shallow embedding of the SentinelAuth access-control service.

Sources embedded here:
* src/api/ratelimit.py        - the Lua token-bucket script and its wrapper
* src/api/audit/service.py    - suspicious_login_check
* src/api/config.py           - Settings.determine_relaxed_mode
* src/api/models.py           - the declarative ORM classes the service uses
* src/api/auth/service.py     - AuthService.login / refresh / helper methods

The mapped attributes come from src/api/models.py as written: the
RefreshToken class maps is_revoked (models.py:85) and declares no
revoked_at attribute, even though migration 202501020002 renames the
durable column and src/api/auth/service.py is written against revoked_at.
Consequently RefreshToken(..., revoked_at=None, ...) raises TypeError in
the declarative constructor and record.revoked_at raises AttributeError on
a loaded record; the embedding reproduces both.

Conventions: instants are integers (seconds since the epoch, already
timezone-normalized, matching the _as_aware_utc handling of the service);
Lua/Redis numbers are rationals; a SQLAlchemy session is modelled by
threading an explicit Store value, where raising before commit returns the
original (rolled-back) store and committing returns the mutated one.
-/

namespace SentinelAuth

/-! ### Rate limiter (src/api/ratelimit.py) -/

/-- Per-key state kept by the Lua script: the `tokens` and `timestamp`
hash fields. -/
structure BucketState where
  tokens : ℚ
  timestamp : ℚ
deriving Repr, DecidableEq

/-- The RATE_LIMIT_LUA script: refill from the elapsed time, cap at
capacity, then either consume one token (allowed) or persist the refilled
fractional count (rejected).  `st = none` models an absent key. -/
def rateLimitScript (capacity refill_rate now : ℚ) (st : Option BucketState) :
    (Bool × ℚ) × BucketState :=
  let tokens : ℚ :=
    match st with
    | none => capacity
    | some s => min capacity (s.tokens + (now - s.timestamp) * refill_rate)
  if tokens < 1 then ((false, tokens), ⟨tokens, now⟩)
  else ((true, tokens - 1), ⟨tokens - 1, now⟩)

/-- consume_token: computes refill_rate = capacity / period_seconds and runs
the script.  (The TTL argument only sets a Redis key expiry, which is not
part of the bucket arithmetic; keys are modelled as non-expiring.) -/
def consume_token (capacity period_seconds : ℕ) (now : ℚ)
    (st : Option BucketState) : (Bool × ℚ) × BucketState :=
  rateLimitScript (capacity : ℚ) ((capacity : ℚ) / (period_seconds : ℚ)) now st

/-- Run `n` consume_token calls back to back at one instant, returning the
list of allowed flags and the final stored state. -/
def consumeSeq (capacity period_seconds : ℕ) (now : ℚ) :
    ℕ → Option BucketState → List Bool × Option BucketState
  | 0, st => ([], st)
  | n + 1, st =>
    let r := consume_token capacity period_seconds now st
    let rest := consumeSeq capacity period_seconds now n (some r.2)
    (r.1.1 :: rest.1, rest.2)

/-! ### Anomaly detection (src/api/audit/service.py) -/

/-- Result of suspicious_login_check. -/
structure SuspiciousLoginResult where
  severity : String
  reason : Option String := none
deriving Repr, DecidableEq

/-- Python truthiness of an optional string (None and "" are falsy). -/
def strTruthy : Option String → Bool
  | none => false
  | some s => !s.isEmpty

/-- suspicious_login_check: the chained `previous and new and previous !=
new` tests are truthiness on each operand followed by the inequality (which
Python only reaches once both operands are non-empty strings, so comparing
the optional values agrees with comparing the strings). -/
def suspicious_login_check (previous_ip previous_ua new_ip new_ua : Option String) :
    SuspiciousLoginResult :=
  let reasons : List String :=
    (if strTruthy previous_ip && (strTruthy new_ip && previous_ip != new_ip) then
      ["IP changed from " ++ previous_ip.getD "" ++ " to " ++ new_ip.getD ""]
     else []) ++
    (if strTruthy previous_ua && (strTruthy new_ua && previous_ua != new_ua) then
      ["User agent changed"]
     else [])
  if reasons.isEmpty then { severity := "low" }
  else
    { severity := if 1 < reasons.length then "high" else "medium"
      reason := some (String.intercalate "; " reasons) }

/-! ### Configuration (src/api/config.py) -/

/-- Python str.lower (character-wise, as used on ASCII settings values and
email addresses). -/
def pyLower (s : String) : String := ⟨s.data.map Char.toLower⟩

/-- Python str.strip: whitespace removed from both ends. -/
def pyStrip (s : String) : String :=
  ⟨((s.data.dropWhile Char.isWhitespace).reverse.dropWhile Char.isWhitespace).reverse⟩

/-- The raw value pydantic hands to the `dev_relaxed_mode` validator
(pre=True, always=True): absent, a boolean, or an environment string. -/
inductive RawFlag
  | missing
  | ofBool (b : Bool)
  | ofString (s : String)
deriving Repr, DecidableEq

/-- Settings.determine_relaxed_mode: forces the relaxed flag off whenever
app_env lower-cases to "prod", otherwise coerces the supplied value. -/
def determine_relaxed_mode (app_env : String) (value : RawFlag) : Bool :=
  if pyLower app_env = "prod" then false
  else
    match value with
    | .missing => true
    | .ofString s => pyLower (pyStrip s) ∈ ["1", "true", "yes", "on"]
    | .ofBool b => b

/-! ### Data model (src/api/models.py, src/api/schemas.py,
src/api/security.py) -/

/-- A users row.  `roles` is the loaded role-name collection. -/
structure UserRec where
  id : ℕ
  email : String
  password_hash : String
  is_active : Bool
  last_login_at : Option ℤ := none
  last_login_ip : Option String := none
  last_login_ua : Option String := none
  roles : List String := ["user"]
deriving Repr, DecidableEq

/-- A RefreshToken ORM instance as the class maps it (models.py:75-89):
the revocation column is the Boolean is_revoked; there is NO revoked_at
attribute, because models.py was never updated to migration 202501020002,
while the service code reads and writes record.revoked_at. -/
structure RefreshRecord where
  user_id : ℕ
  jti : String
  issued_at : ℤ
  expires_at : ℤ
  is_revoked : Bool := false
  ip : Option String := none
  user_agent : Option String := none
deriving Repr, DecidableEq

/-- A sessions row. -/
structure SessionRec where
  user_id : ℕ
  created_at : ℤ
  last_seen_at : ℤ
  ip : Option String := none
  user_agent : Option String := none
  device_fingerprint : String
  active : Bool
deriving Repr, DecidableEq

/-- A login_attempts row. -/
structure LoginAttemptRec where
  email : String
  ip : String
  user_agent : String
  success : Bool
deriving Repr, DecidableEq

/-- An audit_events row (the metadata fields the service writes that the
claims inspect: anomaly severity and the fallback flag). -/
structure AuditEventRec where
  user_id : Option ℕ
  event_type : String
  ip : Option String
  user_agent : Option String
  severity : String
  fallback : Bool
deriving Repr, DecidableEq

/-- The relational store.  One value is the committed state; service code
below mutates a working copy and either commits it or rolls back to the
original. -/
structure Store where
  users : List UserRec := []
  refresh_tokens : List RefreshRecord := []
  sessions : List SessionRec := []
  login_attempts : List LoginAttemptRec := []
  audit_events : List AuditEventRec := []
deriving Repr, DecidableEq

/-- Decoded JWT claims.  The codec is embedded at the claims level: a token
value stands for the claim set its signed string carries, and presenting a
token that does not decode or type-check is modelled by `Option.none` at the
call sites. -/
structure TokenClaims where
  sub : Option ℕ
  roles : List String
  jti : Option String
  typ : String
  iat : ℤ
  exp : ℤ
deriving Repr, DecidableEq

/-- The TokenPair response schema.  `refresh_token = none` models the empty
string the fallback path substitutes for a missing token. -/
structure TokenPair where
  access_token : TokenClaims
  refresh_token : Option TokenClaims
  expires_in : ℤ
  refresh_expires_in : ℤ
  warning : Option String := none
deriving Repr, DecidableEq

/-- An HTTPException the service raises: status code plus detail string. -/
structure HttpError where
  status_code : ℕ
  detail : String
deriving Repr, DecidableEq

/-- The fresh uuid4 jtis a single service call may draw (normal pair plus
the jti of the fallback access token). -/
structure FreshIds where
  access_jti : String
  refresh_jti : String
  fallback_jti : String
deriving Repr, DecidableEq

/-- Which external calls succeed during one service call: obtaining a Redis
client, the Redis existence probe, the refresh-record SELECT, the
INSERT/flush of new rows, the Redis SETEX mirror, and the Redis DEL of the
old jti. -/
structure FaultEnv where
  redis_client_ok : Bool
  redis_check_ok : Bool
  db_lookup_ok : Bool
  db_flush_ok : Bool
  cache_set_ok : Bool
  cache_delete_ok : Bool
deriving Repr, DecidableEq

/-- Every dependency up and every store call succeeding. -/
def FaultEnv.allOk : FaultEnv :=
  ⟨true, true, true, true, true, true⟩

/-- Deployment settings (the fields the auth service reads). -/
structure Settings where
  app_env : String := "dev"
  secret_key : String := "test-secret-key-123456"
  access_token_ttl_min : ℕ := 15
  refresh_token_ttl_days : ℕ := 7
  dev_relaxed_mode : Bool := true
  refresh_persistence : String := "db"
deriving Repr, DecidableEq

/-- Modelled from bcrypt: hashing is an injective tag, so verification
succeeds exactly on the original password (the claims only case on whether
verify_password returns true or false). -/
def hash_password (password : String) : String :=
  "bcrypt$" ++ password

/-- verify_password checks the candidate against the stored hash. -/
def verify_password (password password_hash : String) : Bool :=
  password_hash == hash_password password

/-- `value or default` on an optional string, Python-style. -/
def strOrD (o : Option String) (d : String) : String :=
  match o with
  | some s => if s.isEmpty then d else s
  | none => d

/-- utils/ip.py fingerprint: a plain pipe-join with truthiness defaults
("unknown" for a falsy ip or user agent, "na" for a falsy device id). -/
def fingerprint (ip user_agent : String) (device_fingerprint : Option String) :
    String :=
  (if ip.isEmpty then "unknown" else ip) ++ "|" ++
    (if user_agent.isEmpty then "unknown" else user_agent) ++ "|" ++
    strOrD device_fingerprint "na"

/-- Result of security.generate_token_pair. -/
structure TokenPairResult where
  access_token : TokenClaims
  refresh_token : TokenClaims
  access_expires_at : ℤ
  refresh_expires_at : ℤ
  access_jti : String
  refresh_jti : String
deriving Repr, DecidableEq

/-- generate_token_pair from src/api/security.py: access expiry is now plus
the access TTL in minutes, refresh expiry now plus the refresh TTL in days. -/
def generate_token_pair (user_id : ℕ) (roles : List String) (s : Settings)
    (fresh : FreshIds) (now : ℤ) : TokenPairResult :=
  let access_exp : ℤ := now + (s.access_token_ttl_min : ℤ) * 60
  let refresh_exp : ℤ := now + (s.refresh_token_ttl_days : ℤ) * 86400
  { access_token :=
      ⟨some user_id, roles, some fresh.access_jti, "access", now, access_exp⟩
    refresh_token :=
      ⟨some user_id, roles, some fresh.refresh_jti, "refresh", now, refresh_exp⟩
    access_expires_at := access_exp
    refresh_expires_at := refresh_exp
    access_jti := fresh.access_jti
    refresh_jti := fresh.refresh_jti }

/-- Replace the user row with the mutated ORM instance. -/
def updateUserRec (store : Store) (u : UserRec) : Store :=
  { store with users := store.users.map fun v => if v.id == u.id then u else v }

/-- AuthService._record_login_attempt: adds a row to the session (pending
until commit). -/
def record_login_attempt (store : Store) (email ip user_agent : String)
    (success : Bool) : Store :=
  { store with
    login_attempts := store.login_attempts ++ [⟨email, ip, user_agent, success⟩] }

/-- The warning constant FALLBACK_REFRESH_WARNING. -/
def FALLBACK_REFRESH_WARNING : String :=
  "DEV relaxed: refresh store unavailable, rotation skipped"

/-- The constant FALLBACK_ACCESS_TTL_MINUTES. -/
def FALLBACK_ACCESS_TTL_MINUTES : ℤ := 5

/-- The exception _issue_tokens_with_persistence raises.  In the program as
written it ALWAYS raises: after the pure generate_token_pair call, the
constructor call RefreshToken(..., revoked_at=None, ...) at
service.py:380-388 passes the keyword revoked_at, which the mapped class
does not declare (models.py:85 maps is_revoked), and the declarative base
rejects unknown keywords with TypeError.  TypeError is not a
RefreshPersistenceError, so every caller lands in its generic
except-Exception handler: register, login and the refresh rotation all roll
back and answer 503. -/
inductive IssueError
  | typeErrorRevokedAtKwarg
deriving Repr, DecidableEq

/-- AuthService._issue_tokens_with_persistence.  The method dies at the
RefreshToken construction (see IssueError) before adding anything to the
session, so it never returns a pair and leaves no pending writes; the
flush, last-login update, Redis mirroring and audit code later in the
method (service.py:390-470) is dead. -/
def issue_tokens_with_persistence (_s : Settings) (_env : FaultEnv)
    (_fresh : FreshIds) (_now : ℤ) (_store : Store) (_user : UserRec)
    (_ip _user_agent : Option String) (_device_fingerprint : Option String)
    (_event : String) (_redis_client : Bool) :
    Except IssueError (TokenPair × Store) :=
  .error .typeErrorRevokedAtKwarg

/-- AuthService._fallback_access_only: a fresh 5-minute access token, the
presented refresh token echoed back (empty when absent), last-login fields
updated, an audit event with fallback=true, and the DEV relaxed warning.
Returns the pending store; both call sites commit it directly after. -/
def fallback_access_only (_s : Settings) (fallback_jti : String) (now : ℤ)
    (store : Store) (user : UserRec) (roles : List String)
    (ip user_agent : Option String) (event : String)
    (refresh_tok : Option TokenClaims) (refresh_expires_at : Option ℤ) :
    TokenPair × Store :=
  let access_token : TokenClaims :=
    ⟨some user.id, roles, some fallback_jti, "access", now,
      now + FALLBACK_ACCESS_TTL_MINUTES * 60⟩
  let prev_ip := user.last_login_ip
  let prev_ua := user.last_login_ua
  let user' :=
    { user with
      last_login_at := some now, last_login_ip := ip, last_login_ua := user_agent }
  let store1 := updateUserRec store user'
  let susp := suspicious_login_check prev_ip prev_ua ip user_agent
  let store2 :=
    { store1 with
      audit_events := store1.audit_events ++
        [⟨some user.id, event, ip, user_agent, susp.severity, true⟩] }
  let refresh_expires_in : ℤ :=
    match refresh_tok, refresh_expires_at with
    | some _, some e => if e ≠ 0 then max 0 (e - now) else 0
    | _, _ => 0
  ({ access_token := access_token
     refresh_token := refresh_tok
     expires_in := FALLBACK_ACCESS_TTL_MINUTES * 60
     refresh_expires_in := refresh_expires_in
     warning := some FALLBACK_REFRESH_WARNING }, store2)

/-- AuthService.login.  The returned store is the committed state after the
call: every HTTPException path rolls the session back first, so those
branches return the original store and the pending rows written before the
raise (such as the success=false LoginAttempt) are discarded. -/
def login (s : Settings) (env : FaultEnv) (fresh : FreshIds) (now : ℤ)
    (store : Store) (email password : String)
    (device_fingerprint : Option String) (ip user_agent : String) :
    Except HttpError TokenPair × Store :=
  match store.users.find? (fun u => u.email == pyLower email) with
  | none =>
    let _pending := record_login_attempt store email ip user_agent false
    (.error ⟨401, "Invalid credentials"⟩, store)
  | some user =>
    if !verify_password password user.password_hash then
      let _pending := record_login_attempt store email ip user_agent false
      (.error ⟨401, "Invalid credentials"⟩, store)
    else if !user.is_active then
      (.error ⟨403, "Account disabled"⟩, store)
    else
      let pending1 := record_login_attempt store email ip user_agent true
      match issue_tokens_with_persistence s env fresh now pending1 user
          (some ip) (some user_agent) device_fingerprint "user.login" false with
      | .error _ => (.error ⟨503, "Service unavailable"⟩, store)
      | .ok (pair, pending2) => (.ok pair, pending2)

/-- The Redis pre-validation phase of AuthService.refresh (lines 182-213):
returns (client obtained, did_fallback) or the 503 it raises.  A cache hit
or miss is only logged, so the boolean result of the probe is not modelled. -/
def refreshRedisGate (s : Settings) (env : FaultEnv) :
    Except HttpError (Bool × Bool) :=
  if s.refresh_persistence != "redis" then .ok (false, false)
  else if !env.redis_client_ok then
    if !s.dev_relaxed_mode then .error ⟨503, "Service unavailable"⟩
    else .ok (false, false)
  else if !env.redis_check_ok then
    if !s.dev_relaxed_mode then .error ⟨503, "Service unavailable"⟩
    else .ok (false, true)
  else .ok (true, false)

deriving instance DecidableEq for Except

/-- Result of one refresh call: the HTTP outcome, the committed store after
the call, and a ghost flag recording whether _fallback_access_only ran. -/
structure RefreshOutcome where
  result : Except HttpError TokenPair
  store : Store
  used_fallback_access_only : Bool
deriving Repr, DecidableEq

/-- AuthService.refresh.  `tok = none` models a token that fails decoding;
otherwise `tok` carries the decoded claims of the presented refresh token.
After a successful SELECT the method reads record.expires_at (mapped) and
record.revoked_at (service.py:240-241).  The mapped class has no revoked_at
attribute (models.py:85 maps is_revoked), so for an existing record the
second read raises AttributeError; lines 239-253 sit outside every
try/except in the method, so nothing catches it, the framework answers 500
Internal Server Error, and the session is closed uncommitted (store
unchanged).  The validation conditions, the revoke at line 259, the
issuance and the cache deletion (service.py:243-301) are therefore
unreachable whenever a record exists; a missing record still takes the
`record is None` branch of the validation and yields the 401. -/
def refresh (s : Settings) (env : FaultEnv) (fresh : FreshIds) (now : ℤ)
    (store : Store) (tok : Option TokenClaims) (ip user_agent : String) :
    RefreshOutcome :=
  match tok with
  | none => ⟨.error ⟨401, "Invalid token"⟩, store, false⟩
  | some p =>
    if p.typ ≠ "refresh" then ⟨.error ⟨401, "Invalid token"⟩, store, false⟩
    else if !strTruthy p.jti || p.sub.isNone then
      ⟨.error ⟨401, "Refresh token invalid or revoked"⟩, store, false⟩
    else
      let j := p.jti.getD ""
      let uid := p.sub.getD 0
      match store.users.find? (fun u => u.id == uid) with
      | none => ⟨.error ⟨401, "Refresh token invalid or revoked"⟩, store, false⟩
      | some user =>
        if !user.is_active then
          ⟨.error ⟨401, "Refresh token invalid or revoked"⟩, store, false⟩
        else
          match refreshRedisGate s env with
          | .error e => ⟨.error e, store, false⟩
          | .ok (_client, _did_fb0) =>
            let roles := if p.roles.isEmpty then user.roles else p.roles
            if !env.db_lookup_ok then
              if s.dev_relaxed_mode then
                let fb := fallback_access_only s fresh.fallback_jti now store
                  user roles (some ip) (some user_agent) "user.refresh"
                  (some p) (some p.exp)
                ⟨.ok fb.1, fb.2, true⟩
              else ⟨.error ⟨503, "Service unavailable"⟩, store, false⟩
            else
              match store.refresh_tokens.find? (fun r => r.jti == j) with
              | none =>
                ⟨.error ⟨401, "Refresh token invalid or revoked"⟩, store, false⟩
              | some _record =>
                ⟨.error ⟨500, "Internal Server Error"⟩, store, false⟩

/-! ### Two racing refresh transactions on one token id

Each racing refresh call runs in its own session against the shared
committed store.  In the program neither call can ever write: any call
whose SELECT finds the record crashes at the unmapped record.revoked_at
read (service.py:241) before reaching the revoke, and the issuance raises
TypeError regardless, so the shared store is never mutated and every
interleaving behaves as two independent reads of the same committed
state. -/

/-- Outcome of one racing refresh transaction. -/
inductive TxResult
  | ok200
  | err401
  | err500
deriving Repr, DecidableEq

/-- Progress of one refresh transaction in the race model. -/
inductive TxPhase
  | ready
  | finished (r : TxResult)
deriving Repr, DecidableEq

/-- Shared committed store plus the phase of each racing transaction. -/
structure RaceState where
  committed : Store
  tx1 : TxPhase
  tx2 : TxPhase
deriving Repr, DecidableEq

/-- One atomic database step of transaction `who`: the SELECT of the shared
record followed by the service.py:239-241 reads.  A missing record finishes
the transaction with the 401; an existing record finishes it with the 500
raised by the AttributeError at the unmapped revoked_at read.  No
transaction ever reaches the revoke or the issuance, so a step never
changes the committed store. -/
def raceStep (j : String) (st : RaceState) (who : Bool) : RaceState :=
  let phase := if who then st.tx1 else st.tx2
  let next : TxPhase :=
    match phase with
    | .ready =>
      match st.committed.refresh_tokens.find? (fun r => r.jti == j) with
      | none => .finished .err401
      | some _ => .finished .err500
    | .finished r => .finished r
  if who then { st with tx1 := next } else { st with tx2 := next }

/-- Run a schedule (list of which transaction performs the next atomic
step) from an initial race state. -/
def runRace (j : String) (sched : List Bool) (st : RaceState) : RaceState :=
  sched.foldl (raceStep j) st

/-! ### Helper predicates used by theorem statements -/

/-- Both optional fields are present (neither null nor empty, matching the
truthiness tests of the source) and carry different strings. -/
def bothPresentAndDiffer : Option String → Option String → Bool
  | some p, some n => !p.isEmpty && !n.isEmpty && p != n
  | _, _ => false

lemma truthy_and_ne_eq_bothPresentAndDiffer (p n : Option String) :
    (strTruthy p && (strTruthy n && p != n)) = bothPresentAndDiffer p n := by
  cases p <;> cases n <;>
    simp only [strTruthy, bothPresentAndDiffer, Bool.and_assoc, Bool.and_false,
      Bool.false_and]
  rfl

/-! ### Concrete sample data for witnesses and counterexamples -/

/-- Development-default settings (db-only persistence, relaxed on). -/
def devSettings : Settings := {}

/-- Strict production-like settings. -/
def strictSettings : Settings :=
  { app_env := "prod", dev_relaxed_mode := false }

/-- An active registered user. -/
def aliceUser : UserRec :=
  { id := 1, email := "alice@example.com"
    password_hash := hash_password "ChangeMe123!", is_active := true }

/-- A disabled user. -/
def carolUser : UserRec :=
  { id := 2, email := "carol@example.com"
    password_hash := hash_password "Secret456!", is_active := false }

/-- A live refresh record (is_revoked false) for alice. -/
def sampleRecord : RefreshRecord :=
  { user_id := 1, jti := "jti-original", issued_at := 1000
    expires_at := 606400, is_revoked := false }

/-- A committed store holding the two users and the refresh record of alice. -/
def sampleStore : Store :=
  { users := [aliceUser, carolUser], refresh_tokens := [sampleRecord] }

/-- The same record flagged revoked through the mapped is_revoked column. -/
def revokedSampleRecord : RefreshRecord :=
  { sampleRecord with is_revoked := true }

/-- The store with the revoked variant of the record. -/
def revokedStore : Store :=
  { users := [aliceUser, carolUser], refresh_tokens := [revokedSampleRecord] }

/-- The store with no refresh record at all for the presented jti. -/
def missingRecordStore : Store :=
  { users := [aliceUser, carolUser], refresh_tokens := [] }

/-- Fresh jtis for a first service call. -/
def sampleFresh : FreshIds :=
  ⟨"jti-access-1", "jti-refresh-1", "jti-fallback-1"⟩

/-- Fresh jtis for a second service call. -/
def sampleFresh2 : FreshIds :=
  ⟨"jti-access-2", "jti-refresh-2", "jti-fallback-2"⟩

/-- The decoded claims of the refresh token held by alice. -/
def sampleToken : TokenClaims :=
  ⟨some 1, ["user"], some "jti-original", "refresh", 1000, 606400⟩

/-- A fault environment with only the refresh-record SELECT failing. -/
def envDbDown : FaultEnv := ⟨true, true, false, true, true, true⟩

/-- A fault environment with only the Redis DEL of the old jti failing. -/
def envCacheDeleteDown : FaultEnv := ⟨true, true, true, true, true, false⟩

/-- Cache-required strict settings. -/
def redisStrictSettings : Settings :=
  { refresh_persistence := "redis", dev_relaxed_mode := false }

/-- Cache-required relaxed settings. -/
def redisRelaxedSettings : Settings :=
  { refresh_persistence := "redis", dev_relaxed_mode := true }

/-! ### Theorems -/

/-- C7: for every settings instance whose environment lower-cases to
"prod", determine_relaxed_mode evaluates to false regardless of the raw
value supplied for the relaxed flag. -/
theorem determine_relaxed_mode_prod_forces_off (app_env : String)
    (value : RawFlag) (h : pyLower app_env = "prod") :
    determine_relaxed_mode app_env value = false := by
  simp [determine_relaxed_mode, h]

/-- Witness for C7 at app_env = "PROD" and a raw "true" value. -/
theorem determine_relaxed_mode_prod_forces_off_witness :
    pyLower "PROD" = "prod" ∧
      determine_relaxed_mode "PROD" (RawFlag.ofString "true") = false :=
  ⟨by decide,
   determine_relaxed_mode_prod_forces_off "PROD" (RawFlag.ofString "true") (by decide)⟩

/-- C9: suspicious_login_check counts one reason per pair (ip, user-agent)
that is present on both sides and differs, and maps zero, one, and two
reasons to severities low, medium, and high; a pair with an absent side
contributes no reason. -/
theorem suspicious_login_check_severity_counts
    (pIp pUa nIp nUa : Option String) :
    (suspicious_login_check pIp pUa nIp nUa).severity =
      (if (if bothPresentAndDiffer pIp nIp then 1 else 0)
          + (if bothPresentAndDiffer pUa nUa then 1 else 0) = 0 then "low"
       else if (if bothPresentAndDiffer pIp nIp then 1 else 0)
          + (if bothPresentAndDiffer pUa nUa then 1 else 0) = 1 then "medium"
       else "high") := by
  simp only [suspicious_login_check, truthy_and_ne_eq_bothPresentAndDiffer]
  by_cases h1 : bothPresentAndDiffer pIp nIp <;>
    by_cases h2 : bothPresentAndDiffer pUa nUa <;>
      simp [h1, h2]

/-- C8: a login whose email has no user record and a login whose email
exists but whose password fails verification produce identical failure
responses: the same 401 status and the same "Invalid credentials" detail,
leaking no user-existence signal. -/
theorem login_failure_responses_identical (s : Settings) (env : FaultEnv)
    (fresh : FreshIds) (now : ℤ) (store : Store)
    (e1 p1 e2 p2 ip ua : String) (dfp : Option String) (u : UserRec)
    (h1 : store.users.find? (fun v => v.email == pyLower e1) = none)
    (h2 : store.users.find? (fun v => v.email == pyLower e2) = some u)
    (h3 : verify_password p2 u.password_hash = false) :
    (login s env fresh now store e1 p1 dfp ip ua).1 =
        Except.error ⟨401, "Invalid credentials"⟩ ∧
      (login s env fresh now store e2 p2 dfp ip ua).1 =
        Except.error ⟨401, "Invalid credentials"⟩ ∧
      (login s env fresh now store e1 p1 dfp ip ua).1 =
        (login s env fresh now store e2 p2 dfp ip ua).1 := by
  refine ⟨?_, ?_, ?_⟩ <;> simp [login, h1, h2, h3]

/-- Witness for C8: unknown email bob vs alice with a wrong password. -/
theorem login_failure_responses_identical_witness :
    (login devSettings FaultEnv.allOk sampleFresh 2000 sampleStore
        "bob@example.com" "pw" none "1.2.3.4" "agent").1 =
        Except.error ⟨401, "Invalid credentials"⟩ ∧
      (login devSettings FaultEnv.allOk sampleFresh 2000 sampleStore
        "alice@example.com" "WrongPassword" none "1.2.3.4" "agent").1 =
        Except.error ⟨401, "Invalid credentials"⟩ ∧
      (login devSettings FaultEnv.allOk sampleFresh 2000 sampleStore
        "bob@example.com" "pw" none "1.2.3.4" "agent").1 =
        (login devSettings FaultEnv.allOk sampleFresh 2000 sampleStore
          "alice@example.com" "WrongPassword" none "1.2.3.4" "agent").1 :=
  login_failure_responses_identical devSettings FaultEnv.allOk sampleFresh 2000
    sampleStore "bob@example.com" "pw" "alice@example.com" "WrongPassword"
    "1.2.3.4" "agent" none aliceUser (by decide) (by decide) (by decide)

/-- C10: a login for an existing, password-verified but inactive user fails
with 403 "Account disabled" and commits nothing: the store after the call is
exactly the store before it (no LoginAttempt row of either kind, last-login
fields untouched). -/
theorem login_disabled_account_no_state_change (s : Settings) (env : FaultEnv)
    (fresh : FreshIds) (now : ℤ) (store : Store)
    (email password ip ua : String) (dfp : Option String) (u : UserRec)
    (h1 : store.users.find? (fun v => v.email == pyLower email) = some u)
    (h2 : verify_password password u.password_hash = true)
    (h3 : u.is_active = false) :
    login s env fresh now store email password dfp ip ua =
      (Except.error ⟨403, "Account disabled"⟩, store) := by
  simp [login, h1, h2, h3]

/-- Witness for C10: the carol account is disabled. -/
theorem login_disabled_account_no_state_change_witness :
    login devSettings FaultEnv.allOk sampleFresh 2000 sampleStore
        "carol@example.com" "Secret456!" none "1.2.3.4" "agent" =
      (Except.error ⟨403, "Account disabled"⟩, sampleStore) :=
  login_disabled_account_no_state_change devSettings FaultEnv.allOk sampleFresh
    2000 sampleStore "carol@example.com" "Secret456!" "1.2.3.4" "agent" none
    carolUser (by decide) (by decide) (by decide)

/-- C3 (code bug): a failed login does add the success=false LoginAttempt to
the session, but the HTTPException handler rolls the transaction back before
re-raising, so the row is discarded: the call returns the 401 yet the store
after the call is exactly the store before it, with no login_attempts row.
The middle conjunct records what the discarded pending write contained. -/
theorem login_failed_attempt_rolled_back :
    login devSettings FaultEnv.allOk sampleFresh 2000 sampleStore
        "bob@example.com" "anything" none "10.0.0.9" "agent" =
      (Except.error ⟨401, "Invalid credentials"⟩, sampleStore) ∧
    (record_login_attempt sampleStore "bob@example.com" "10.0.0.9" "agent"
        false).login_attempts =
      [⟨"bob@example.com", "10.0.0.9", "agent", false⟩] ∧
    sampleStore.login_attempts = [] :=
  ⟨by decide, by decide, rfl⟩

/-- C2 (code bug): two refresh calls racing on the same still-valid token
id both crash with the 500 from the unmapped revoked_at read - under either
interleaving order - and the shared committed store is never written, so
the claimed exactly-one-200-and-one-401 outcome never happens (and no
transaction ever observes or commits a revocation). -/
theorem refresh_race_both_crash_500 :
    runRace "jti-original" [true, false]
        ⟨sampleStore, TxPhase.ready, TxPhase.ready⟩ =
      ⟨sampleStore, TxPhase.finished TxResult.err500,
        TxPhase.finished TxResult.err500⟩ ∧
    runRace "jti-original" [false, true]
        ⟨sampleStore, TxPhase.ready, TxPhase.ready⟩ =
      ⟨sampleStore, TxPhase.finished TxResult.err500,
        TxPhase.finished TxResult.err500⟩ := by
  refine ⟨?_, ?_⟩ <;> decide

/-! ### Rate-limiter lemmas -/

lemma consume_token_initial (capacity period_seconds : ℕ) (hc : 1 ≤ capacity)
    (t : ℚ) :
    consume_token capacity period_seconds t none =
      ((true, (capacity : ℚ) - 1), ⟨(capacity : ℚ) - 1, t⟩) := by
  have h1 : (1 : ℚ) ≤ (capacity : ℚ) := by exact_mod_cast hc
  unfold consume_token rateLimitScript
  rw [if_neg (not_lt.mpr h1)]

lemma consume_token_same_instant (capacity period_seconds : ℕ)
    (t : ℚ) (j : ℕ) (hj : j ≤ capacity) :
    consume_token capacity period_seconds t (some ⟨(j : ℚ), t⟩) =
      if j = 0 then ((false, 0), ⟨0, t⟩)
      else ((true, (j : ℚ) - 1), ⟨(j : ℚ) - 1, t⟩) := by
  have hmin : min (capacity : ℚ)
      ((j : ℚ) + (t - t) * ((capacity : ℚ) / (period_seconds : ℚ))) = (j : ℚ) := by
    rw [sub_self, zero_mul, add_zero]
    exact min_eq_right (by exact_mod_cast hj)
  unfold consume_token rateLimitScript
  dsimp only
  rw [hmin]
  by_cases hz : j = 0
  · subst hz
    rw [if_pos (by norm_num), if_pos rfl]
    norm_num
  · have h1 : (1 : ℚ) ≤ (j : ℚ) := by
      exact_mod_cast Nat.one_le_iff_ne_zero.mpr hz
    rw [if_neg (not_lt.mpr h1), if_neg hz]

lemma consumeSeq_same_instant (capacity period_seconds : ℕ) (t : ℚ) :
    ∀ (m j : ℕ), j ≤ capacity →
      consumeSeq capacity period_seconds t m (some ⟨(j : ℚ), t⟩) =
        (List.replicate (min m j) true ++ List.replicate (m - j) false,
         some ⟨((j - min m j : ℕ) : ℚ), t⟩)
  | 0, j, _ => by simp [consumeSeq]
  | m + 1, 0, _ => by
    have hstep := consume_token_same_instant capacity period_seconds t 0
      (Nat.zero_le _)
    have hrec := consumeSeq_same_instant capacity period_seconds t m 0
      (Nat.zero_le _)
    simp only [Nat.cast_zero] at hstep hrec
    simp [consumeSeq, hstep, hrec, List.replicate_succ]
  | m + 1, k + 1, hj => by
    have hstep := consume_token_same_instant capacity period_seconds t (k + 1) hj
    have hrec := consumeSeq_same_instant capacity period_seconds t m k
      (le_trans (Nat.le_succ k) hj)
    have hcast : ((k + 1 : ℕ) : ℚ) - 1 = (k : ℚ) := by push_cast; ring
    rw [if_neg (Nat.succ_ne_zero k)] at hstep
    simp only [consumeSeq, hstep, hcast, hrec]
    refine Prod.ext ?_ ?_
    · simp [Nat.succ_min_succ, List.replicate_succ, Nat.succ_sub_succ]
    · simp [Nat.succ_min_succ, Nat.succ_sub_succ]

lemma consumeSeq_from_empty (capacity period_seconds : ℕ) (hc : 1 ≤ capacity)
    (t : ℚ) (n : ℕ) :
    consumeSeq capacity period_seconds t n none =
      (List.replicate (min n capacity) true ++ List.replicate (n - capacity) false,
       if n = 0 then none
       else some ⟨((capacity - min n capacity : ℕ) : ℚ), t⟩) := by
  match n with
  | 0 => simp [consumeSeq]
  | m + 1 =>
    have hstep := consume_token_initial capacity period_seconds hc t
    have hcast : (capacity : ℚ) - 1 = ((capacity - 1 : ℕ) : ℚ) := by
      have := Nat.succ_pred_eq_of_pos (lt_of_lt_of_le Nat.zero_lt_one hc)
      push_cast [Nat.cast_sub hc]
      ring
    have hrec := consumeSeq_same_instant capacity period_seconds t m
      (capacity - 1) (Nat.sub_le _ _)
    have hmin : min (m + 1) capacity = min m (capacity - 1) + 1 := by omega
    have hsub : (m + 1) - capacity = m - (capacity - 1) := by omega
    have hsub2 : capacity - min (m + 1) capacity =
        (capacity - 1) - min m (capacity - 1) := by omega
    rw [show consumeSeq capacity period_seconds t (m + 1) none =
        (let r := consume_token capacity period_seconds t none
         let rest := consumeSeq capacity period_seconds t m (some r.2)
         (r.1.1 :: rest.1, rest.2)) from rfl]
    rw [hstep]
    simp only [hcast, hrec]
    rw [if_neg (Nat.succ_ne_zero m)]
    refine Prod.ext ?_ ?_
    · simp [hmin, hsub, List.replicate_succ]
    · simp [hsub2]

lemma consume_token_after_wait (capacity period_seconds : ℕ)
    (hc : 1 ≤ capacity) (hp : 1 ≤ period_seconds) (t d : ℚ) :
    ((consume_token capacity period_seconds (t + d) (some ⟨0, t⟩)).1.1 = true
      ↔ (period_seconds : ℚ) / (capacity : ℚ) ≤ d) := by
  have hcap : (0 : ℚ) < (capacity : ℚ) := by exact_mod_cast hc
  have hper : (0 : ℚ) < (period_seconds : ℚ) := by exact_mod_cast hp
  have hc1 : (1 : ℚ) ≤ (capacity : ℚ) := by exact_mod_cast hc
  have harg : (0 : ℚ) + (t + d - t) * ((capacity : ℚ) / (period_seconds : ℚ)) =
      d * (capacity : ℚ) / (period_seconds : ℚ) := by ring
  have key : ¬ min (capacity : ℚ) (d * (capacity : ℚ) / (period_seconds : ℚ)) < 1
      ↔ (period_seconds : ℚ) / (capacity : ℚ) ≤ d := by
    rw [not_lt, le_min_iff, one_le_div hper, div_le_iff₀ hcap]
    exact and_iff_right hc1
  unfold consume_token rateLimitScript
  dsimp only
  rw [harg]
  by_cases h : min (capacity : ℚ) (d * (capacity : ℚ) / (period_seconds : ℚ)) < 1
  · rw [if_pos h]
    simp only [Bool.false_eq_true, false_iff]
    intro hle
    exact (key.mpr hle) h
  · rw [if_neg h]
    simpa using key.mp h

/-- C4: the rate limiter is the continuous token bucket the spec describes.
First conjunct: one consume call refills by elapsed times capacity/period
capped at capacity, then either consumes exactly one token (allowed, when
the refilled count is at least 1) or persists the refilled fractional count
unchanged (rejected).  Remaining conjuncts: from a fresh (full) bucket of
size C, exactly the first C same-instant calls are allowed; the bucket is
then exactly empty; and a later call is allowed precisely when at least
period/capacity seconds have elapsed since exhaustion. -/
theorem rate_limiter_token_bucket (capacity period_seconds : ℕ)
    (hc : 1 ≤ capacity) (hp : 1 ≤ period_seconds) (t : ℚ) :
    (∀ (tok ts now : ℚ), ts ≤ now →
      consume_token capacity period_seconds now (some ⟨tok, ts⟩) =
        (if 1 ≤ min (capacity : ℚ)
            (tok + (now - ts) * ((capacity : ℚ) / (period_seconds : ℚ))) then
          ((true, min (capacity : ℚ)
              (tok + (now - ts) * ((capacity : ℚ) / (period_seconds : ℚ))) - 1),
            ⟨min (capacity : ℚ)
              (tok + (now - ts) * ((capacity : ℚ) / (period_seconds : ℚ))) - 1, now⟩)
         else
          ((false, min (capacity : ℚ)
              (tok + (now - ts) * ((capacity : ℚ) / (period_seconds : ℚ)))),
            ⟨min (capacity : ℚ)
              (tok + (now - ts) * ((capacity : ℚ) / (period_seconds : ℚ))), now⟩)))
    ∧ (∀ n : ℕ,
        (consumeSeq capacity period_seconds t n none).1 =
          List.replicate (min n capacity) true ++
            List.replicate (n - capacity) false)
    ∧ (∀ n : ℕ, capacity ≤ n →
        (consumeSeq capacity period_seconds t n none).2 = some ⟨0, t⟩)
    ∧ (∀ d : ℚ,
        ((consume_token capacity period_seconds (t + d) (some ⟨0, t⟩)).1.1 = true
          ↔ (period_seconds : ℚ) / (capacity : ℚ) ≤ d)) := by
  refine ⟨?_, ?_, ?_, ?_⟩
  · intro tok ts now _
    unfold consume_token rateLimitScript
    dsimp only
    by_cases h : min (capacity : ℚ)
        (tok + (now - ts) * ((capacity : ℚ) / (period_seconds : ℚ))) < 1
    · rw [if_pos h, if_neg (not_le.mpr h)]
    · rw [if_neg h, if_pos (not_lt.mp h)]
  · intro n
    rw [consumeSeq_from_empty capacity period_seconds hc t n]
  · intro n hn
    rw [consumeSeq_from_empty capacity period_seconds hc t n]
    have hn0 : n ≠ 0 := by omega
    rw [if_neg hn0]
    have : capacity - min n capacity = 0 := by omega
    rw [this]
    norm_num
  · intro d
    exact consume_token_after_wait capacity period_seconds hc hp t d

/-- Witness for C4 at capacity 3, period 60: from a full bucket exactly the
first three same-instant calls pass, the bucket is then empty, and a call
20 seconds later passes since 60/3 = 20 seconds have elapsed. -/
theorem rate_limiter_token_bucket_witness :
    (consumeSeq 3 60 0 5 none).1 = [true, true, true, false, false] ∧
      (consumeSeq 3 60 0 5 none).2 = some ⟨0, 0⟩ ∧
      ((consume_token 3 60 (0 + 20) (some ⟨0, 0⟩)).1.1 = true ↔
        (60 : ℚ) / (3 : ℚ) ≤ 20) := by
  have h := rate_limiter_token_bucket 3 60 (by norm_num) (by norm_num) 0
  refine ⟨?_, h.2.2.1 5 (by norm_num), h.2.2.2 20⟩
  have h2 := h.2.1 5
  simpa [List.replicate] using h2

/-! ### Refresh-path lemmas -/

lemma refresh_outcome_cases (s : Settings) (env : FaultEnv) (fresh : FreshIds)
    (now : ℤ) (store : Store) (tok : Option TokenClaims) (ip ua : String) :
    (refresh s env fresh now store tok ip ua).used_fallback_access_only = false
    ∨ (s.dev_relaxed_mode = true ∧
      ∃ (user : UserRec) (roles : List String) (p : TokenClaims),
        tok = some p ∧
        refresh s env fresh now store tok ip ua =
          ⟨.ok (fallback_access_only s fresh.fallback_jti now store user roles
              (some ip) (some ua) "user.refresh" (some p) (some p.exp)).1,
            (fallback_access_only s fresh.fallback_jti now store user roles
              (some ip) (some ua) "user.refresh" (some p) (some p.exp)).2,
            true⟩) := by
  cases tok with
  | none => exact Or.inl rfl
  | some p =>
    simp only [refresh]
    repeat' split
    all_goals
      first
        | exact Or.inl rfl
        | exact Or.inr ⟨by assumption, _, _, _, rfl, rfl⟩

lemma fallback_access_only_props (s : Settings) (fjti : String) (now : ℤ)
    (store : Store) (user : UserRec) (roles : List String)
    (ip ua : Option String) (event : String) (p : TokenClaims) :
    (fallback_access_only s fjti now store user roles ip ua event (some p)
        (some p.exp)).1.refresh_token = some p ∧
    (fallback_access_only s fjti now store user roles ip ua event (some p)
        (some p.exp)).1.expires_in = FALLBACK_ACCESS_TTL_MINUTES * 60 ∧
    ((fallback_access_only s fjti now store user roles ip ua event (some p)
        (some p.exp)).1.access_token.exp -
      (fallback_access_only s fjti now store user roles ip ua event (some p)
        (some p.exp)).1.access_token.iat) = FALLBACK_ACCESS_TTL_MINUTES * 60 ∧
    (fallback_access_only s fjti now store user roles ip ua event (some p)
        (some p.exp)).1.warning = some FALLBACK_REFRESH_WARNING ∧
    (fallback_access_only s fjti now store user roles ip ua event (some p)
        (some p.exp)).2.refresh_tokens = store.refresh_tokens := by
  refine ⟨rfl, rfl, ?_, rfl, rfl⟩
  simp [fallback_access_only]

/-- C5: the fallback access-only path is never taken in a strict deployment;
whenever it is taken, the refresh_tokens table is left untouched (no new
RefreshRecord, no revocation or rotation of the presented token), the
original refresh token is echoed back unchanged, the issued access token
carries the fixed 5-minute TTL, and the response carries the non-empty DEV
relaxed warning string. -/
theorem refresh_fallback_access_only_safety (s : Settings) (env : FaultEnv)
    (fresh : FreshIds) (now : ℤ) (store : Store) (tok : Option TokenClaims)
    (ip ua : String) :
    (s.dev_relaxed_mode = false →
      (refresh s env fresh now store tok ip ua).used_fallback_access_only =
        false) ∧
    ((refresh s env fresh now store tok ip ua).used_fallback_access_only =
        true →
      ∃ pair, (refresh s env fresh now store tok ip ua).result = .ok pair ∧
        (refresh s env fresh now store tok ip ua).store.refresh_tokens =
          store.refresh_tokens ∧
        pair.refresh_token = tok ∧
        pair.expires_in = FALLBACK_ACCESS_TTL_MINUTES * 60 ∧
        pair.access_token.exp - pair.access_token.iat =
          FALLBACK_ACCESS_TTL_MINUTES * 60 ∧
        pair.warning = some FALLBACK_REFRESH_WARNING ∧
        FALLBACK_REFRESH_WARNING ≠ "") := by
  constructor
  · intro hstrict
    rcases refresh_outcome_cases s env fresh now store tok ip ua with h | ⟨hrel, -⟩
    · exact h
    · rw [hstrict] at hrel
      cases hrel
  · intro hgh
    rcases refresh_outcome_cases s env fresh now store tok ip ua with
      h | ⟨-, user, roles, p, htok, heq⟩
    · rw [h] at hgh
      cases hgh
    · obtain ⟨hr1, hr2, hr3, hr4, hr5⟩ := fallback_access_only_props s
        fresh.fallback_jti now store user roles (some ip) (some ua)
        "user.refresh" p
      refine ⟨(fallback_access_only s fresh.fallback_jti now store user roles
          (some ip) (some ua) "user.refresh" (some p) (some p.exp)).1,
        ?_, ?_, ?_, hr2, hr3, hr4, by decide⟩
      · rw [heq]
      · rw [heq]
        exact hr5
      · rw [hr1, htok]

/-- Witness for C5: with the durable lookup down under relaxed settings the
fallback path runs, and the theorem yields the echoed token, 5-minute TTL
and warning. -/
theorem refresh_fallback_access_only_safety_witness :
    (refresh devSettings envDbDown sampleFresh 2000 sampleStore
        (some sampleToken) "1.2.3.4" "agent").used_fallback_access_only =
      true ∧
    (∃ pair,
      (refresh devSettings envDbDown sampleFresh 2000 sampleStore
          (some sampleToken) "1.2.3.4" "agent").result = .ok pair ∧
      (refresh devSettings envDbDown sampleFresh 2000 sampleStore
          (some sampleToken) "1.2.3.4" "agent").store.refresh_tokens =
        sampleStore.refresh_tokens ∧
      pair.refresh_token = some sampleToken ∧
      pair.expires_in = FALLBACK_ACCESS_TTL_MINUTES * 60 ∧
      pair.access_token.exp - pair.access_token.iat =
        FALLBACK_ACCESS_TTL_MINUTES * 60 ∧
      pair.warning = some FALLBACK_REFRESH_WARNING ∧
      FALLBACK_REFRESH_WARNING ≠ "") :=
  ⟨by decide,
   (refresh_fallback_access_only_safety devSettings envDbDown sampleFresh 2000
     sampleStore (some sampleToken) "1.2.3.4" "agent").2 (by decide)⟩

/-- C1 (code bug): the 401-on-invalid-record and replay defense the claim
describes is broken by the stale ORM model.  A refresh over a record that
EXISTS - shown here for both a live record and one flagged revoked via the
mapped is_revoked column - dies with the framework 500 raised by the
AttributeError at the unmapped record.revoked_at read, instead of the
claimed 401; only a MISSING record still yields the 401.  And issuance
always raises the TypeError on the revoked_at keyword, so no rotation ever
commits and no token id can ever become rotated-away-then-replayed. -/
theorem refresh_existing_record_500_instead_of_401 :
    refresh devSettings FaultEnv.allOk sampleFresh 2000 sampleStore
        (some sampleToken) "1.2.3.4" "agent" =
      ⟨.error ⟨500, "Internal Server Error"⟩, sampleStore, false⟩ ∧
    refresh devSettings FaultEnv.allOk sampleFresh 2000 revokedStore
        (some sampleToken) "1.2.3.4" "agent" =
      ⟨.error ⟨500, "Internal Server Error"⟩, revokedStore, false⟩ ∧
    refresh devSettings FaultEnv.allOk sampleFresh 2000 missingRecordStore
        (some sampleToken) "1.2.3.4" "agent" =
      ⟨.error ⟨401, "Refresh token invalid or revoked"⟩, missingRecordStore,
        false⟩ ∧
    issue_tokens_with_persistence devSettings FaultEnv.allOk sampleFresh 2000
        sampleStore aliceUser (some "1.2.3.4") (some "agent") none
        "user.refresh" false = .error IssueError.typeErrorRevokedAtKwarg := by
  refine ⟨by decide, by decide, by decide, rfl⟩

/-- C6 (code bug): the claimed scenario - the Redis DEL of the old jti
failing after the revoke and the new issuance - is unreachable.  In a
cache-required deployment with a still-valid record and the cache delete
failing, both the strict and the relaxed deployment crash with the 500 at
the unmapped revoked_at read, store unchanged, before any revoke, issuance
or cache deletion: neither the strict 503-with-rollback nor the relaxed
warning response is ever produced. -/
theorem refresh_cache_delete_branching_unreachable :
    refresh redisStrictSettings envCacheDeleteDown sampleFresh 2000
        sampleStore (some sampleToken) "1.2.3.4" "agent" =
      ⟨.error ⟨500, "Internal Server Error"⟩, sampleStore, false⟩ ∧
    refresh redisRelaxedSettings envCacheDeleteDown sampleFresh 2000
        sampleStore (some sampleToken) "1.2.3.4" "agent" =
      ⟨.error ⟨500, "Internal Server Error"⟩, sampleStore, false⟩ := by
  refine ⟨?_, ?_⟩ <;> decide

end SentinelAuth
